import Mathlib

/-!
Verification of the node-path opaque foreign value wrapper
(`godot-core/src/builtin/string/node_path.rs`).

The wrapper delegates construction, destruction, equality, hashing,
emptiness and text conversion to a foreign runtime. The foreign entry
points and the sibling repository types (`GString`, `StringName`,
`inner::InnerNodePath`, the `impl_builtin_traits!` expansion, the serde
framework glue) are not part of the reviewed source; they are modelled
from the specification. The spec states that every node-path instance is
representable by its text form and that conversion from text round-trips,
so the opaque foreign storage is modelled by the text it represents. The
host-side functions below are translated line by line from the source.
-/

namespace GodotRust

/-- Modelled from the spec: the foreign-native string representation
(`GString`, defined elsewhere in the repository). A UTF-8 text value,
modelled by its content. -/
structure GString where
  text : String
deriving DecidableEq

/-- Modelled from the spec: the foreign interned-string type
(`StringName`, defined elsewhere in the repository), modelled by its
text content. -/
structure StringName where
  text : String
deriving DecidableEq

/-- The opaque node-path value. The spec states every instance is
producible from and representable by a text value, so the opaque
foreign storage is modelled by that text. -/
structure NodePath where
  text : String
deriving DecidableEq

/-- Modelled from the spec: the foreign entry point
`node_path_from_string` (used by `impl From<&GString> for NodePath`) —
given any UTF-8 text value, produces the value representable by that
text. -/
def node_path_from_string (g : GString) : NodePath :=
  NodePath.mk g.text

/-- Modelled from the spec: the foreign entry point
`node_path_construct_default`, the target of the `Default` trait in the
`impl_builtin_traits!` expansion. Produces the value representable by
the empty text (the spec requires a default-constructed instance to
report empty). -/
def node_path_construct_default : NodePath :=
  NodePath.mk ""

/-- Modelled from the spec: the foreign entry point
`node_path_operator_equal`, the target of the `Eq` trait in the
`impl_builtin_traits!` expansion — whether two opaque values represent
the same logical path. -/
def node_path_operator_equal (a b : NodePath) : Bool :=
  a.text == b.text

/-- Modelled from the spec: `GString::from(&str)` (defined elsewhere in
the repository) — builds the foreign-native string representation of a
UTF-8 text value. -/
def GString.from_str (s : String) : GString :=
  GString.mk s

/-- Modelled from the spec: `GString::from(&NodePath)` (defined
elsewhere in the repository) — the to-text direction; yields the text
the opaque value represents. -/
def GString.from_node_path (p : NodePath) : GString :=
  GString.mk p.text

/-- Modelled from the spec: `GString::from(&StringName)` and
`GString::from(StringName)` (defined elsewhere in the repository) —
text-preserving conversion of the interned-string type. -/
def GString.from_string_name (n : StringName) : GString :=
  GString.mk n.text

/-- From the source, `impl From<&GString> for NodePath`: delegates to
the foreign constructor `node_path_from_string`. -/
def NodePath.from_gstring_ref (g : GString) : NodePath :=
  node_path_from_string g

/-- From the source, `impl From<GString> for NodePath`: identical to
`NodePath::from(&string)`, no separate fast path. -/
def NodePath.from_gstring (g : GString) : NodePath :=
  NodePath.from_gstring_ref g

/-- From the source, `impl<S: AsRef<str>> From<S> for NodePath`: builds
the intermediate `GString` from the text, then converts that. -/
def NodePath.from_text (s : String) : NodePath :=
  let intermediate := GString.from_str s
  NodePath.from_gstring_ref intermediate

/-- From the source, `impl From<&StringName> for NodePath`:
`Self::from(GString::from(string_name))` — two hops through `GString`. -/
def NodePath.from_string_name_ref (n : StringName) : NodePath :=
  NodePath.from_gstring (GString.from_string_name n)

/-- From the source, `impl From<StringName> for NodePath`:
`Self::from(GString::from(string_name))` — identical to the by-reference
conversion, no separate fast path. -/
def NodePath.from_string_name (n : StringName) : NodePath :=
  NodePath.from_gstring (GString.from_string_name n)

/-- From the source, `impl fmt::Display for NodePath`: converts to
`GString` first, then renders that (the `GString` display renders its
text content, modelled from the spec). -/
def NodePath.to_text (p : NodePath) : String :=
  (GString.from_node_path p).text

/-- From the source, `impl fmt::Debug for NodePath`: wraps the display
text in the GDScript literal marker, `write!(f, ...)` with the text
between a caret-quote and a closing quote. -/
def NodePath.debug_text (p : NodePath) : String :=
  "^\"" ++ (GString.from_node_path p).text ++ "\""

/-- Modelled from the spec: the auxiliary inner-method-table query
`InnerNodePath::is_empty` (generated code elsewhere in the repository)
— reports whether the path is the empty path, i.e. whether its text is
empty. -/
def InnerNodePath.is_empty (p : NodePath) : Bool :=
  p.text == ""

/-- From the source, `NodePath::is_empty`: delegates to the inner
method table. -/
def NodePath.is_empty (p : NodePath) : Bool :=
  InnerNodePath.is_empty p

/-- Modelled from the spec: Godot's 32-bit string hash (djb2-style),
accumulated over the code points with 32-bit wrapping. The foreign
runtime guarantees the result fits in the unsigned-32-bit range. -/
def godot_string_hash (cs : List Char) : Nat :=
  cs.foldl (fun h c => (h * 33 + c.toNat) % 4294967296) 5381

/-- Modelled from the spec: the foreign hash entry point
`InnerNodePath::hash` (generated code elsewhere in the repository).
Its declared return type is a 64-bit signed integer, but the runtime
guarantees the value lies in the unsigned-32-bit range. -/
def InnerNodePath.hash (p : NodePath) : Int :=
  (godot_string_hash p.text.data : Nat)

/-- The host-side `u32::try_from` applied to the 64-bit signed value
returned across the FFI boundary: `some` when the value fits in the
unsigned-32-bit range, `none` otherwise. -/
def u32_try_from (h : Int) : Option Nat :=
  if 0 ≤ h ∧ h < 4294967296 then some h.toNat else none

/-- From the source, `NodePath::hash`:
`self.as_inner().hash().try_into().expect("Godot hashes are uint32_t")`.
The `.expect` is modelled by `Option`, where `none` is the defensive
assertion (panic) branch. -/
def NodePath.hash (p : NodePath) : Option Nat :=
  u32_try_from (InnerNodePath.hash p)

/-- The foreign-side state relevant to `from_arg_ptr`: the reference
count of the underlying refcounted node-path value. -/
structure FfiState where
  rc : Nat
deriving DecidableEq

/-- From the source (via `ffi_methods!`): `from_sys` reads the value at
the argument pointer without touching its reference count. -/
def from_sys (v : NodePath) (st : FfiState) : NodePath × FfiState :=
  (v, st)

/-- Modelled from the spec: `Clone` delegates to the foreign entry point
`node_path_construct_copy`, which increments the reference count so that
source and copy are independently destructible. -/
def node_path_construct_copy (p : NodePath) (st : FfiState) : NodePath × FfiState :=
  (p, FfiState.mk (st.rc + 1))

/-- `std::mem::forget`: suppresses the destructor of the copy, leaving
the reference count untouched. -/
def mem_forget (_copy : NodePath) (st : FfiState) : FfiState :=
  st

/-- Modelled from the spec: `Drop` delegates to the foreign entry point
`node_path_destroy`, which decrements the reference count. -/
def node_path_destroy (_p : NodePath) (st : FfiState) : FfiState :=
  FfiState.mk (st.rc - 1)

/-- From the source, `NodePath::from_arg_ptr`: read the value with
`from_sys`, clone it, forget the clone, return the read value. -/
def NodePath.from_arg_ptr (v : NodePath) (st : FfiState) : NodePath × FfiState :=
  let node_path := from_sys v st
  let copied := node_path_construct_copy node_path.1 node_path.2
  let st3 := mem_forget copied.1 copied.2
  (node_path.1, st3)

/-- Modelled from the spec: the serde data model as driven by a
self-describing deserializer — only the shapes relevant to this type:
a bare text value, the tagged single-field (newtype) wrapper, and two
representatives of unsupported shapes. -/
inductive SerdeValue where
  | str (s : String)
  | newtype_struct (nm : String) (v : SerdeValue)
  | int (n : Int)
  | boolean (b : Bool)
deriving DecidableEq

/-- From the source, `impl Serialize for NodePath`:
`serializer.serialize_newtype_struct("NodePath", &*self.to_string())`. -/
def NodePath.serialize (p : NodePath) : SerdeValue :=
  SerdeValue.newtype_struct "NodePath" (SerdeValue.str (NodePath.to_text p))

/-- From the source, `NodePathVisitor::visit_str`: reconstructs via the
from-text conversion. -/
def NodePathVisitor.visit_str (s : String) : Except String NodePath :=
  Except.ok (NodePath.from_text s)

/-- Modelled from the spec: `deserialize_str` of a self-describing
deserializer positioned at value `v` — drives `visit_str` when the
value is text, otherwise reports a typed invalid-type error. -/
def deserialize_str_node_path (v : SerdeValue) : Except String NodePath :=
  match v with
  | SerdeValue.str s => NodePathVisitor.visit_str s
  | _ => Except.error "invalid type: expected a string"

/-- From the source, `NodePathVisitor::visit_newtype_struct`: forwards
the inner deserializer to `deserialize_str`. -/
def NodePathVisitor.visit_newtype_struct (inner : SerdeValue) : Except String NodePath :=
  deserialize_str_node_path inner

/-- From the source, `impl Deserialize for NodePath`:
`deserializer.deserialize_newtype_struct("NodePath", NodePathVisitor)`.
A self-describing deserializer dispatches on the shape of the input:
text drives `visit_str`, a newtype wrapper drives
`visit_newtype_struct` on its field, anything else is a typed
invalid-type error. -/
def NodePath.deserialize (v : SerdeValue) : Except String NodePath :=
  match v with
  | SerdeValue.str s => NodePathVisitor.visit_str s
  | SerdeValue.newtype_struct _ inner => NodePathVisitor.visit_newtype_struct inner
  | _ => Except.error "invalid type: expected a NodePath"

end GodotRust

namespace GodotRust

theorem godot_hash_foldl_lt (cs : List Char) (acc : Nat) (hacc : acc < 4294967296) :
    List.foldl (fun h c => (h * 33 + c.toNat) % 4294967296) acc cs < 4294967296 := by
  induction cs generalizing acc with
  | nil => simpa using hacc
  | cons c cs ih =>
      simp only [List.foldl_cons]
      exact ih _ (Nat.mod_lt _ (by norm_num))

theorem godot_string_hash_lt (cs : List Char) : godot_string_hash cs < 4294967296 :=
  godot_hash_foldl_lt cs 5381 (by norm_num)

/-- C1: For every UTF-8 string `s`, including the empty string,
converting `s` to a `NodePath` via the from-text conversion
(`From<S: AsRef<str>>`) and rendering back via `Display` yields
exactly `s`. -/
theorem c1_from_text_to_text_roundtrip (s : String) :
    NodePath.to_text (NodePath.from_text s) = s := rfl

/-- C2: `NodePath::from_arg_ptr` reads the value at the pointer, then
performs exactly one copy whose destructor is suppressed: the returned
value is the one at the pointer, the foreign reference count rises by
exactly one, and one subsequent destroy returns the count to its
original value (the result is independently owned and destructible). -/
theorem c2_from_arg_ptr_refcount (v : NodePath) (st : FfiState) :
    (NodePath.from_arg_ptr v st).1 = v ∧
    (NodePath.from_arg_ptr v st).2.rc = st.rc + 1 ∧
    node_path_destroy (NodePath.from_arg_ptr v st).1 (NodePath.from_arg_ptr v st).2 = st := by
  refine ⟨rfl, rfl, ?_⟩
  simp [NodePath.from_arg_ptr, from_sys, node_path_construct_copy, mem_forget,
    node_path_destroy]

/-- C3: `NodePath::hash` returns the foreign hash value as an unsigned
32-bit integer whenever it fits in that range, hits the defensive
assertion (modelled as `none`) for any value outside the range, and —
under the foreign guarantee that hashes are `uint32_t` — the assertion
branch is unreachable: on every instance the hash succeeds. -/
theorem c3_hash_u32_contract :
    (∀ h : Int, 0 ≤ h → h < 4294967296 → u32_try_from h = some h.toNat) ∧
    (∀ h : Int, h < 0 ∨ 4294967296 ≤ h → u32_try_from h = none) ∧
    (∀ p : NodePath, NodePath.hash p = some (InnerNodePath.hash p).toNat) := by
  refine ⟨?_, ?_, ?_⟩
  · intro h h0 h32
    simp [u32_try_from, h0, h32]
  · intro h hout
    rcases hout with hneg | hbig
    · simp [u32_try_from]
      intro h0
      omega
    · simp [u32_try_from]
      intro h0
      omega
  · intro p
    have hlt : InnerNodePath.hash p < 4294967296 := by
      simpa [InnerNodePath.hash] using
        (Int.ofNat_lt.mpr (godot_string_hash_lt p.text.data))
    have h0 : 0 ≤ InnerNodePath.hash p := by
      simp [InnerNodePath.hash]
    simp [NodePath.hash, u32_try_from, h0, hlt]

theorem c3_hash_u32_contract_witness :
    u32_try_from 7 = some 7 ∧ u32_try_from 4294967296 = none :=
  ⟨c3_hash_u32_contract.1 7 (by decide) (by decide),
   c3_hash_u32_contract.2.1 4294967296 (Or.inr (by decide))⟩

/-- C4: Deserialization accepts exactly two shapes — a bare text value,
or the newtype wrapper whose field is a text value — and in both cases
the result equals the from-text conversion of that text; any other
shape (e.g. a number) yields a typed deserialization error, not a
panic. -/
theorem c4_deserialize_shapes :
    (∀ s, NodePath.deserialize (SerdeValue.str s) = Except.ok (NodePath.from_text s)) ∧
    (∀ nm s, NodePath.deserialize (SerdeValue.newtype_struct nm (SerdeValue.str s)) =
      Except.ok (NodePath.from_text s)) ∧
    (∀ v r, NodePath.deserialize v = Except.ok r →
      ∃ s, (v = SerdeValue.str s ∨
          ∃ nm, v = SerdeValue.newtype_struct nm (SerdeValue.str s)) ∧
        r = NodePath.from_text s) ∧
    (∀ n : Int, ∃ e, NodePath.deserialize (SerdeValue.int n) = Except.error e) := by
  refine ⟨fun s => rfl, fun nm s => rfl, ?_, fun n => ⟨_, rfl⟩⟩
  intro v r h
  cases v with
  | str s =>
      simp [NodePath.deserialize, NodePathVisitor.visit_str] at h
      exact ⟨s, Or.inl rfl, h.symm⟩
  | newtype_struct nm inner =>
      cases inner with
      | str s =>
          simp [NodePath.deserialize, NodePathVisitor.visit_newtype_struct,
            deserialize_str_node_path, NodePathVisitor.visit_str] at h
          exact ⟨s, Or.inr ⟨nm, rfl⟩, h.symm⟩
      | newtype_struct nm2 w =>
          simp [NodePath.deserialize, NodePathVisitor.visit_newtype_struct,
            deserialize_str_node_path] at h
      | int k =>
          simp [NodePath.deserialize, NodePathVisitor.visit_newtype_struct,
            deserialize_str_node_path] at h
      | boolean b =>
          simp [NodePath.deserialize, NodePathVisitor.visit_newtype_struct,
            deserialize_str_node_path] at h
  | int k => simp [NodePath.deserialize] at h
  | boolean b => simp [NodePath.deserialize] at h

theorem c4_deserialize_shapes_witness :
    ∃ s, (SerdeValue.str "abc" = SerdeValue.str s ∨
        ∃ nm, SerdeValue.str "abc" = SerdeValue.newtype_struct nm (SerdeValue.str s)) ∧
      NodePath.from_text "abc" = NodePath.from_text s :=
  c4_deserialize_shapes.2.2.1 (SerdeValue.str "abc") (NodePath.from_text "abc") rfl

/-- C5: the foreign equality is reflexive, symmetric and transitive,
and is congruent with `NodePath::hash`: equal instances hash equal. -/
theorem c5_eq_equivalence_hash_congruent :
    (∀ a, node_path_operator_equal a a = true) ∧
    (∀ a b, node_path_operator_equal a b = true → node_path_operator_equal b a = true) ∧
    (∀ a b c, node_path_operator_equal a b = true → node_path_operator_equal b c = true →
      node_path_operator_equal a c = true) ∧
    (∀ a b, node_path_operator_equal a b = true → NodePath.hash a = NodePath.hash b) := by
  refine ⟨?_, ?_, ?_, ?_⟩
  · intro a
    simp [node_path_operator_equal]
  · intro a b h
    simp [node_path_operator_equal] at h ⊢
    exact h.symm
  · intro a b c hab hbc
    simp [node_path_operator_equal] at hab hbc ⊢
    exact hab.trans hbc
  · intro a b h
    simp [node_path_operator_equal] at h
    have hab : a = b := by
      cases a
      cases b
      simpa using h
    rw [hab]

theorem c5_eq_equivalence_hash_congruent_witness :
    node_path_operator_equal (NodePath.mk "x") (NodePath.mk "x") = true ∧
    NodePath.hash (NodePath.mk "x") = NodePath.hash (NodePath.mk "y/z") →
      NodePath.hash (NodePath.mk "x") = NodePath.hash (NodePath.mk "x") :=
  fun _ =>
    c5_eq_equivalence_hash_congruent.2.2.2 (NodePath.mk "x") (NodePath.mk "x")
      (c5_eq_equivalence_hash_congruent.1 (NodePath.mk "x"))

/-- C6: serialization emits the newtype wrapper keyed by the type name,
whose single field is exactly the value's display text. -/
theorem c6_serialize_newtype (p : NodePath) :
    NodePath.serialize p =
      SerdeValue.newtype_struct "NodePath" (SerdeValue.str (NodePath.to_text p)) ∧
    (∀ s, NodePath.serialize (NodePath.from_text s) =
      SerdeValue.newtype_struct "NodePath" (SerdeValue.str s)) :=
  ⟨rfl, fun _ => rfl⟩

/-- C7: the Debug rendering of the value built from text "foo" is
exactly the five characters of caret-quoted foo; in general Debug wraps
the display text in the GDScript literal marker. -/
theorem c7_debug_literal_marker :
    NodePath.debug_text (NodePath.from_text "foo") = "^\"foo\"" ∧
    (∀ s, NodePath.debug_text (NodePath.from_text s) = "^\"" ++ s ++ "\"") := by
  constructor
  · decide
  · intro s
    rfl

/-- C8: conversion from `StringName` (by value or by reference) goes
through `GString` and is identical to performing the two hops
explicitly; conversion from `GString` by value is identical to the
by-reference conversion — no separate fast path anywhere. -/
theorem c8_string_name_two_hop (n : StringName) (g : GString) :
    NodePath.from_string_name n = NodePath.from_string_name_ref n ∧
    NodePath.from_string_name_ref n = NodePath.from_gstring (GString.from_string_name n) ∧
    NodePath.from_string_name n = NodePath.from_gstring (GString.from_string_name n) ∧
    NodePath.from_gstring g = NodePath.from_gstring_ref g :=
  ⟨rfl, rfl, rfl, rfl⟩

/-- C9: a default-constructed `NodePath` reports `is_empty() == true`,
and a `NodePath` built from any non-empty text reports
`is_empty() == false`. -/
theorem c9_is_empty_default_and_nonempty (s : String) (h : s ≠ "") :
    NodePath.is_empty node_path_construct_default = true ∧
    NodePath.is_empty (NodePath.from_text s) = false := by
  refine ⟨rfl, ?_⟩
  simp [NodePath.is_empty, InnerNodePath.is_empty, NodePath.from_text,
    NodePath.from_gstring_ref, node_path_from_string, GString.from_str]
  exact h

theorem c9_is_empty_default_and_nonempty_witness :
    NodePath.is_empty node_path_construct_default = true ∧
    NodePath.is_empty (NodePath.from_text "a") = false :=
  c9_is_empty_default_and_nonempty "a" (by decide)

/-- C10: a `NodePath` built from the empty string reports
`is_empty() == true` and is equal, under the foreign equality
operator, to a default-constructed `NodePath`. -/
theorem c10_empty_text_is_default :
    NodePath.is_empty (NodePath.from_text "") = true ∧
    node_path_operator_equal (NodePath.from_text "") node_path_construct_default = true := by
  constructor
  · decide
  · decide

end GodotRust
